import Mathlib

/-!
Verification development for the MicroTSM Vue micro-frontend lifecycle
adapter (`src/lib/microtsm-vue.ts`).

The repository vendors two versions of the adapter in the same file:
the current one (`createVueMicroApp` with the `setupInstance` hook, the
`microtsm-standalone-app` container tag, a navigation-event listener and
the `setRouterHistoryLocation` resync) and an older variant (with the
`handleInstance` hook, the `microtsm-mfe-app` tag, a `<div>` fallback for
missing selectors and an `opts.el` overwrite on the synthesis path).
Both are embedded below: `mount`/`update`/`unmount`/
`handleInternalNavigation` model the current adapter, `oldMount` the old
variant's mount.

DOM, Vue and vue-router are external collaborators; they are modelled
only as far as the adapter touches them:
- an element is its tag, its attribute list and its text content;
- the document is its top-level body children, head children, and an
  abstract `querySelector` answer function;
- a Vue application instance is its `config.globalProperties` surface
  (the `$router` entry separated out, the remaining entries as a
  string-keyed list), the element it is mounted on (if any) and the
  props it was created with; the root component itself is opaque and
  plays no role in any claim;
- `router.replace(path)` is recorded as an issued navigation action
  rather than mutating router state, since the adapter only ever issues
  such navigations and compares `router.currentRoute.value.fullPath`.

Observable effect order inside `mount`/`unmount` is recorded as a trace
of events (`Ev`), mirroring the statement order of the source.
-/

namespace MicroTSMVue

/-- A DOM element: tag name, attributes (in insertion order), text content. -/
structure Elem where
  tag : String
  attrs : List (String × String)
  text : String
deriving DecidableEq

/-- The document as the adapter sees it: top-level body children, head
children, and the answer `document.querySelector` gives for a selector
(abstract, since CSS matching is browser behaviour). -/
structure Doc where
  body : List Elem
  head : List Elem
  query : String → Option Elem

/-- The fragment's router, read off `config.globalProperties.$router`;
the adapter only ever reads `currentRoute.value.fullPath` from it. -/
structure Router where
  currentFullPath : String
deriving DecidableEq

/-- `MicroAppProps` from the source: the optional explicit mount element,
the optional fragment name. The arbitrary pass-through key/values are
only ever consumed by `update`, which receives them separately. -/
structure MicroAppProps where
  domElement : Option Elem
  name : Option String
deriving DecidableEq

/-- A Vue application instance as the adapter uses it:
`config.globalProperties.$router`, the other `config.globalProperties`
entries, the element it is mounted on, and the props it was created with
(`createApp(rootComponent, props)`). -/
structure VueApp where
  router : Option Router
  globalProps : List (String × String)
  mounted : Option Elem
  rootProps : MicroAppProps
deriving DecidableEq

/-- `CreateVueMicroAppOptions` from the source: the optional
selector-or-element mount target and the optional `setupInstance` hook.
The hook is modelled as a transformation of the instance that either
completes (returning the instance it mutated) or fails with an error. -/
structure CreateVueMicroAppOptions where
  el : Option (Sum String Elem)
  setupInstance : Option (VueApp → MicroAppProps → Except String VueApp)

/-- The mutable state closed over by one adapter: the single `app` slot,
the document, whether `handleInternalNavigation` is currently registered
on `window` for the `microtsm:navigation-event` (addEventListener with
the same listener twice is a browser-level no-op, so a flag is exact),
and the page's `customElements` registry of defined tag names. -/
structure AdapterState where
  app : Option VueApp
  doc : Doc
  listener : Bool
  registry : List String

/-- `window.location` as read by `setRouterHistoryLocation`. -/
structure Loc where
  href : String
  origin : String
deriving DecidableEq

/-- A URL carried by the navigation event (`to` / `from` fields). -/
structure UrlRec where
  href : String
  origin : String
deriving DecidableEq

/-- The `microtsm:navigation-event` detail `\x7b to, from \x7d`
(`to` and `from` are Lean keywords, hence `toUrl` / `fromUrl`). -/
structure NavEvent where
  toUrl : UrlRec
  fromUrl : UrlRec
deriving DecidableEq

/-- A navigation issued on the router. -/
inductive NavAction where
  | replace (path : String)
deriving DecidableEq

/-- Observable events emitted during mount/unmount, in statement order. -/
inductive Ev where
  | listenerAdded
  | hookRan
  | routerReplace (path : String)
  | attached
  | removedListener
  | unmountedInstance
deriving DecidableEq

/-- Remove the first occurrence of `pat` from `s` (character list form);
if `pat` does not occur, `s` is unchanged. This is JavaScript
`s.replace(pat, '')` for a plain-string pattern. -/
def removeFirstOcc : List Char → List Char → List Char
  | [], _ => []
  | c :: cs, pat =>
    if pat.isPrefixOf (c :: cs) then List.drop pat.length (c :: cs)
    else c :: removeFirstOcc cs pat

/-- JavaScript `s.replace(pat, '')` for a plain-string pattern. -/
def stripFirst (s pat : String) : String :=
  String.mk (removeFirstOcc s.toList pat.toList)

/-- JavaScript `props.name ? props.name : 'default-mfe'`: an absent name
and the (falsy) empty string both yield the fixed fallback. -/
def jsNameOr : Option String → String
  | some n => if n = "" then "default-mfe" else n
  | none => "default-mfe"

/-- Line 143: `props.domElement && document.body.contains(props.domElement)` —
the explicit element is used only when it is currently attached. -/
def domElOk (props : MicroAppProps) (st : AdapterState) : Option Elem :=
  match props.domElement with
  | some e => if e ∈ st.doc.body then some e else none
  | none => none

/-- Line 145: `else if (opts.el)` — JavaScript truthiness makes an
empty-string selector behave as an absent target. -/
def elTruthy : Option (Sum String Elem) → Option (Sum String Elem)
  | some (Sum.inl s) => if s = "" then none else some (Sum.inl s)
  | x => x

/-- The custom tag registered by the current adapter (line 167). -/
def standaloneTag : String := "microtsm-standalone-app"

/-- The one-time style element injected alongside registration
(lines 171-173). -/
def styleElem : Elem :=
  ⟨"style", [], "microtsm-standalone-app \x7b display: block; \x7d"⟩

/-- Lines 176-177: `document.createElement('microtsm-standalone-app')`
followed by `setAttribute('name', mfeName)`. -/
def mkContainer (mfeName : String) : Elem :=
  ⟨standaloneTag, [("name", mfeName)], ""⟩

/-- Lines 167-174: `if (!customElements.get(tag))` then
`customElements.define(tag, ...)` and append the style to the head. -/
def registerStandalone (registry : List String) (head : List Elem) :
    List String × List Elem :=
  if standaloneTag ∈ registry then (registry, head)
  else (standaloneTag :: registry, head ++ [styleElem])

/-- The synthesis path of the resolver (lines 157-179): idempotent
registration, then create the container, set its name attribute and
append it to the body. -/
def synthSt (props : MicroAppProps) (st : AdapterState) : AdapterState :=
  let p := registerStandalone st.registry st.doc.head
  { st with
      registry := p.1,
      doc := { st.doc with
                 head := p.2,
                 body := st.doc.body ++ [mkContainer (jsNameOr props.name)] } }

/-- The mount error thrown when a configured selector matches nothing
(lines 149-152; the leading emoji of the source string is omitted). -/
def errMessage : String :=
  "Failed to mount the app: The specified DOM element does not exist. " ++
  "If `el` is provided as a query string, ensure that the element is present in your `index.html`."

/-- Mount-target resolution of the current adapter (lines 141-179):
priority `props.domElement` (if attached) > `opts.el` (selector queried,
missing selector is a thrown error; concrete element used directly) >
synthesis of the custom container. -/
def resolveTarget (opts : CreateVueMicroAppOptions) (props : MicroAppProps)
    (st : AdapterState) : Except String (Elem × AdapterState) :=
  match domElOk props st with
  | some e => Except.ok (e, st)
  | none =>
    match elTruthy opts.el with
    | some (Sum.inl sel) =>
      match st.doc.query sel with
      | some e => Except.ok (e, st)
      | none => Except.error errMessage
    | some (Sum.inr e) => Except.ok (e, st)
    | none => Except.ok (mkContainer (jsNameOr props.name), synthSt props st)

/-- Line 182: `app = createApp(rootComponent, props || {})` — a fresh
instance: empty global properties, no router, not mounted. -/
def freshApp (props : MicroAppProps) : VueApp :=
  ⟨none, [], none, props⟩

/-- The result of one `mount` call: the settled promise, the adapter
state after the call, the (closure-captured) options after the call, and
the trace of observable events in order. -/
structure MountOutcome where
  result : Except String VueApp
  st : AdapterState
  opts : CreateVueMicroAppOptions
  trace : List Ev

/-- Lines 196-208 after the hook has completed: `setRouterHistoryLocation()`
(`app` is non-null here; `router?.replace(location.href.replace(location.origin, ''))`
when a router is present) and then `return app.mount(mountEl)`. -/
def finishMount (opts : CreateVueMicroAppOptions) (loc : Loc) (el : Elem)
    (st : AdapterState) (a : VueApp) (tr : List Ev) : MountOutcome :=
  let tr2 := match a.router with
    | some _ => tr ++ [Ev.routerReplace (stripFirst loc.href loc.origin)]
    | none => tr
  let aM := { a with mounted := some el }
  ⟨Except.ok aM, { st with app := some aM }, opts, tr2 ++ [Ev.attached]⟩

/-- Line 206, `await opts.setupInstance?.(app, props)`, by cases on the
awaited outcome (`none` when no hook is configured): on rejection the
async `mount` rejects, with the state changes already made (instance
stored, listener registered) persisting; on completion the possibly
hook-mutated instance is the one the `app` slot refers to, and mounting
proceeds (lines 207-208). `st2` is the state after lines 182 and 203,
`app0` the freshly created instance. -/
def mountHookStep (opts : CreateVueMicroAppOptions) (loc : Loc) (el : Elem)
    (st2 : AdapterState) (app0 : VueApp)
    (hres : Option (Except String VueApp)) : MountOutcome :=
  match hres with
  | none => finishMount opts loc el st2 app0 [Ev.listenerAdded]
  | some (Except.error e) => ⟨Except.error e, st2, opts, [Ev.listenerAdded]⟩
  | some (Except.ok a1) =>
      finishMount opts loc el { st2 with app := some a1 } a1
        [Ev.listenerAdded, Ev.hookRan]

/-- Lines 182-208 after target resolution: store the fresh instance in
the `app` slot (line 182), register the navigation listener (line 203),
then await the hook if configured and finish (lines 206-208). -/
def mountFrom (opts : CreateVueMicroAppOptions) (props : MicroAppProps)
    (loc : Loc) (el : Elem) (st1 : AdapterState) : MountOutcome :=
  mountHookStep opts loc el
    { st1 with app := some (freshApp props), listener := true } (freshApp props)
    (opts.setupInstance.map (fun h => h (freshApp props) props))

/-- The current adapter's `mount` (lines 140-209). A thrown resolution
error leaves the state untouched (nothing is mutated before the throw). -/
def mount (opts : CreateVueMicroAppOptions) (props : MicroAppProps)
    (st : AdapterState) (loc : Loc) : MountOutcome :=
  match resolveTarget opts props st with
  | Except.error e => ⟨Except.error e, st, opts, []⟩
  | Except.ok (el, st1) => mountFrom opts props loc el st1

/-- One `Object.assign` step for a single key: overwrite in place if the
key exists, append otherwise. -/
def setKey (l : List (String × String)) (k v : String) :
    List (String × String) :=
  if l.any (fun q => q.1 = k) then l.map (fun q => if q.1 = k then (k, v) else q)
  else l ++ [(k, v)]

/-- `Object.assign(target, newProps)` over string-valued entries. -/
def assignPairs (base np : List (String × String)) : List (String × String) :=
  np.foldl (fun acc p => setKey acc p.1 p.2) base

/-- The current adapter's `update` (lines 218-222): merge the new
key/values into `app.config.globalProperties` when an instance is
stored, do nothing otherwise (`newProps` itself defaults to the truthy
`\x7b\x7d`, so only the `app` guard is observable). -/
def update (st : AdapterState) (newProps : List (String × String)) :
    AdapterState :=
  match st.app with
  | some a =>
      { st with app := some { a with globalProps := assignPairs a.globalProps newProps } }
  | none => st

/-- The current adapter's `unmount` (lines 230-236): when an instance is
stored, remove the navigation listener, detach the instance
(`app.unmount()`), clear the slot; otherwise do nothing. Returns the new
state and the trace of observable events. -/
def unmount (st : AdapterState) : AdapterState × List Ev :=
  match st.app with
  | some _ =>
      ({ st with listener := false, app := none },
       [Ev.removedListener, Ev.unmountedInstance])
  | none => (st, [])

/-- `handleInternalNavigation` (lines 109-120): read
`app?.config.globalProperties.$router`; if absent, ignore; otherwise
compare the router's current full path against the origin-stripped
target and issue a single replace-navigation only when they differ. -/
def handleInternalNavigation (st : AdapterState) (ev : NavEvent) :
    List NavAction :=
  match st.app.bind VueApp.router with
  | none => []
  | some r =>
    let targetPath := stripFirst ev.toUrl.href ev.toUrl.origin
    if r.currentFullPath ≠ targetPath then [NavAction.replace targetPath]
    else []

/-- The `bootstrap` lifecycle (lines 128-130): resolves immediately. -/
def bootstrap : Except String Unit := Except.ok ()

/-- The older adapter variant's options (lines 290-305): the optional
selector-or-element target and the `handleInstance` hook. -/
structure OldOptions where
  el : Option (Sum String Elem)
  handleInstance : Option (VueApp → MicroAppProps → Except String VueApp)

/-- The custom tag registered by the older variant (line 405). -/
def oldTag : String := "microtsm-mfe-app"

/-- The older variant's one-time style element (lines 409-411). -/
def oldStyleElem : Elem :=
  ⟨"style", [], "microtsm-mfe-app \x7b display: block; \x7d"⟩

/-- JavaScript `s.replace(/^#/, '')`: drop a single leading hash. -/
def dropLeadingHash (s : String) : String :=
  if s.startsWith "#" then s.drop 1 else s

/-- The result of one old-variant `mount` call. The old variant's `app`
is the construction argument, not a slot written by `mount`, so the
outcome carries the settled promise, the document, the registry and the
(mutated!) options. -/
structure OldMountOutcome where
  result : Except String VueApp
  doc : Doc
  registry : List String
  opts : OldOptions

/-- The older variant's selector branch (lines 384-391), by cases on
the query answer: a selector that matches nothing gets a synthesized
`<div>` fallback carrying the selector minus a leading `#` as its id,
appended to the body. -/
def oldResolveSel (opts : OldOptions) (doc : Doc) (registry : List String)
    (sel : String) (q : Option Elem) : Elem × Doc × List String × OldOptions :=
  match q with
  | some e => (e, doc, registry, opts)
  | none =>
    ((⟨"div", [("id", dropLeadingHash sel)], ""⟩ : Elem),
     { doc with body := doc.body ++ [⟨"div", [("id", dropLeadingHash sel)], ""⟩] },
     registry, opts)

/-- The older variant's synthesis branch (lines 395-418): idempotent
registration of `microtsm-mfe-app`, container creation and append, and
the `opts.el` overwrite with a selector for the container (line 418). -/
def oldResolveSynth (opts : OldOptions) (props : MicroAppProps) (doc : Doc)
    (registry : List String) : Elem × Doc × List String × OldOptions :=
  ((⟨oldTag, [("name", jsNameOr props.name)], ""⟩ : Elem),
   { doc with
       head := (if oldTag ∈ registry then (registry, doc.head)
                else (oldTag :: registry, doc.head ++ [oldStyleElem])).2,
       body := doc.body ++ [⟨oldTag, [("name", jsNameOr props.name)], ""⟩] },
   (if oldTag ∈ registry then (registry, doc.head)
    else (oldTag :: registry, doc.head ++ [oldStyleElem])).1,
   { opts with
       el := some (Sum.inl ("microtsm-mfe-app[name=\"" ++ jsNameOr props.name ++ "\"]")) })

/-- The older variant's target resolution (lines 379-419):
`props.domElement` is used without an attachment check; then the
configured (truthy) `el`; else the synthesis branch. -/
def oldResolve (opts : OldOptions) (props : MicroAppProps) (doc : Doc)
    (registry : List String) : Elem × Doc × List String × OldOptions :=
  match props.domElement with
  | some e => (e, doc, registry, opts)
  | none =>
    match elTruthy opts.el with
    | some (Sum.inl sel) => oldResolveSel opts doc registry sel (doc.query sel)
    | some (Sum.inr e) => (e, doc, registry, opts)
    | none => oldResolveSynth opts props doc registry

/-- The older variant's hook step (lines 425-435), by cases on the
awaited hook outcome: a rejection rejects the mount without attaching;
otherwise the instance is attached to the resolved target `r.1` and the
promise resolves with it. -/
def oldMountHookStep (r : Elem × Doc × List String × OldOptions)
    (hres : Option (Except String VueApp)) (app : VueApp) : OldMountOutcome :=
  match hres with
  | some (Except.error e) => ⟨Except.error e, r.2.1, r.2.2.1, r.2.2.2⟩
  | some (Except.ok a1) =>
      ⟨Except.ok { a1 with mounted := some r.1 }, r.2.1, r.2.2.1, r.2.2.2⟩
  | none => ⟨Except.ok { app with mounted := some r.1 }, r.2.1, r.2.2.1, r.2.2.2⟩

/-- The older variant's `mount` (lines 373-437): resolve the target
(possibly mutating `opts`), then run the `handleInstance` hook if
configured and attach. -/
def oldMount (app : VueApp) (opts : OldOptions) (props : MicroAppProps)
    (doc : Doc) (registry : List String) : OldMountOutcome :=
  oldMountHookStep (oldResolve opts props doc registry)
    ((oldResolve opts props doc registry).2.2.2.handleInstance.map
      (fun h => h app props)) app

/-! ### Concrete instances used by witnesses and counterexamples -/

/-- Empty props: no explicit element, no name. -/
def props0 : MicroAppProps := ⟨none, none⟩

/-- Props with the (falsy) empty-string name. -/
def propsEmptyName : MicroAppProps := ⟨none, some ""⟩

/-- A fresh, empty document in which every selector query misses. -/
def doc0 : Doc := ⟨[], [], fun _ => none⟩

/-- A fresh adapter state: nothing mounted, no listener, empty registry. -/
def st0 : AdapterState := ⟨none, doc0, false, []⟩

/-- A browser location on the page `/app`. -/
def loc0 : Loc := ⟨"http://host/app", "http://host"⟩

/-- Options with no target and no hook. -/
def optsPlain : CreateVueMicroAppOptions := ⟨none, none⟩

/-- A customization hook that always fails. -/
def hookFail : VueApp → MicroAppProps → Except String VueApp :=
  fun _ _ => Except.error "boom"

/-- Options with no target and the always-failing hook. -/
def optsFail : CreateVueMicroAppOptions := ⟨none, some hookFail⟩

/-- Options targeting a selector that matches nothing in `doc0`. -/
def optsMissing : CreateVueMicroAppOptions := ⟨some (Sum.inl "#missing"), none⟩

/-- A router whose current route is `/old`. -/
def routerOld : Router := ⟨"/old"⟩

/-- A hook that installs `routerOld` on the instance and succeeds. -/
def hookRouter : VueApp → MicroAppProps → Except String VueApp :=
  fun a _ => Except.ok { a with router := some routerOld }

/-- Options with no target and the router-installing hook. -/
def optsRouter : CreateVueMicroAppOptions := ⟨none, some hookRouter⟩

/-- A mounted instance whose router currently resolves `/a`. -/
def appNav : VueApp := ⟨some ⟨"/a"⟩, [], none, props0⟩

/-- An adapter state with `appNav` stored and the listener registered. -/
def stNav : AdapterState := ⟨some appNav, doc0, true, [standaloneTag]⟩

/-- A navigation event targeting `/b` (differs from `/a`). -/
def evB : NavEvent := ⟨⟨"http://host/b", "http://host"⟩, ⟨"http://host/a", "http://host"⟩⟩

/-- A navigation event targeting `/a` (equals the current path). -/
def evA : NavEvent := ⟨⟨"http://host/a", "http://host"⟩, ⟨"http://host/b", "http://host"⟩⟩

/-- Old-variant options with no target and no hook. -/
def oldOpts0 : OldOptions := ⟨none, none⟩

/-! ### Helper lemmas -/

theorem finishMount_result (opts : CreateVueMicroAppOptions) (loc : Loc)
    (el : Elem) (st : AdapterState) (a : VueApp) (tr : List Ev) :
    (finishMount opts loc el st a tr).result = Except.ok { a with mounted := some el } := rfl

theorem finishMount_app (opts : CreateVueMicroAppOptions) (loc : Loc)
    (el : Elem) (st : AdapterState) (a : VueApp) (tr : List Ev) :
    (finishMount opts loc el st a tr).st.app = some { a with mounted := some el } := rfl

theorem finishMount_doc (opts : CreateVueMicroAppOptions) (loc : Loc)
    (el : Elem) (st : AdapterState) (a : VueApp) (tr : List Ev) :
    (finishMount opts loc el st a tr).st.doc = st.doc := rfl

theorem finishMount_registry (opts : CreateVueMicroAppOptions) (loc : Loc)
    (el : Elem) (st : AdapterState) (a : VueApp) (tr : List Ev) :
    (finishMount opts loc el st a tr).st.registry = st.registry := rfl

theorem finishMount_opts (opts : CreateVueMicroAppOptions) (loc : Loc)
    (el : Elem) (st : AdapterState) (a : VueApp) (tr : List Ev) :
    (finishMount opts loc el st a tr).opts = opts := rfl

theorem mountHookStep_doc (opts : CreateVueMicroAppOptions) (loc : Loc)
    (el : Elem) (st2 : AdapterState) (app0 : VueApp)
    (hres : Option (Except String VueApp)) :
    (mountHookStep opts loc el st2 app0 hres).st.doc = st2.doc := by
  cases hres with
  | none => rfl
  | some x => cases x <;> rfl

theorem mountHookStep_registry (opts : CreateVueMicroAppOptions) (loc : Loc)
    (el : Elem) (st2 : AdapterState) (app0 : VueApp)
    (hres : Option (Except String VueApp)) :
    (mountHookStep opts loc el st2 app0 hres).st.registry = st2.registry := by
  cases hres with
  | none => rfl
  | some x => cases x <;> rfl

theorem mountHookStep_listener (opts : CreateVueMicroAppOptions) (loc : Loc)
    (el : Elem) (st2 : AdapterState) (app0 : VueApp)
    (hres : Option (Except String VueApp)) :
    (mountHookStep opts loc el st2 app0 hres).st.listener = st2.listener := by
  cases hres with
  | none => rfl
  | some x => cases x <;> rfl

theorem mountHookStep_opts (opts : CreateVueMicroAppOptions) (loc : Loc)
    (el : Elem) (st2 : AdapterState) (app0 : VueApp)
    (hres : Option (Except String VueApp)) :
    (mountHookStep opts loc el st2 app0 hres).opts = opts := by
  cases hres with
  | none => rfl
  | some x => cases x <;> rfl

theorem mountHookStep_ok_app (opts : CreateVueMicroAppOptions) (loc : Loc)
    (el : Elem) (st2 : AdapterState) (app0 : VueApp)
    (hres : Option (Except String VueApp)) (a' : VueApp)
    (h : (mountHookStep opts loc el st2 app0 hres).result = Except.ok a') :
    (mountHookStep opts loc el st2 app0 hres).st.app = some a' := by
  cases hres with
  | none => exact congrArg some (Except.ok.inj h)
  | some x =>
    cases x with
    | error e => exact Except.noConfusion h
    | ok a1 => exact congrArg some (Except.ok.inj h)

theorem mountFrom_doc (opts : CreateVueMicroAppOptions) (props : MicroAppProps)
    (loc : Loc) (el : Elem) (st1 : AdapterState) :
    (mountFrom opts props loc el st1).st.doc = st1.doc :=
  mountHookStep_doc ..

theorem mountFrom_registry (opts : CreateVueMicroAppOptions) (props : MicroAppProps)
    (loc : Loc) (el : Elem) (st1 : AdapterState) :
    (mountFrom opts props loc el st1).st.registry = st1.registry :=
  mountHookStep_registry ..

theorem mountFrom_opts (opts : CreateVueMicroAppOptions) (props : MicroAppProps)
    (loc : Loc) (el : Elem) (st1 : AdapterState) :
    (mountFrom opts props loc el st1).opts = opts :=
  mountHookStep_opts ..

theorem mountFrom_ok_app (opts : CreateVueMicroAppOptions) (props : MicroAppProps)
    (loc : Loc) (el : Elem) (st1 : AdapterState) (a' : VueApp)
    (h : (mountFrom opts props loc el st1).result = Except.ok a') :
    (mountFrom opts props loc el st1).st.app = some a' :=
  mountHookStep_ok_app _ _ _ _ _ _ _ h

/-- Under no attached `props.domElement` and no configured `el`, the
resolver takes the synthesis path. -/
theorem resolveTarget_synth (opts : CreateVueMicroAppOptions)
    (props : MicroAppProps) (st : AdapterState)
    (h0 : opts.el = none) (h1 : props.domElement = none) :
    resolveTarget opts props st =
      Except.ok (mkContainer (jsNameOr props.name), synthSt props st) := by
  unfold resolveTarget domElOk elTruthy
  rw [h0, h1]

/-- `mount` on the synthesis path. -/
theorem mount_synth (opts : CreateVueMicroAppOptions) (props : MicroAppProps)
    (st : AdapterState) (loc : Loc)
    (h0 : opts.el = none) (h1 : props.domElement = none) :
    mount opts props st loc =
      mountFrom opts props loc (mkContainer (jsNameOr props.name)) (synthSt props st) := by
  unfold mount
  rw [resolveTarget_synth opts props st h0 h1]

theorem registerStandalone_mem (reg : List String) (head : List Elem) :
    standaloneTag ∈ (registerStandalone reg head).1 := by
  unfold registerStandalone
  split
  · assumption
  · exact List.mem_cons_self _ _

theorem registerStandalone_of_mem (reg : List String) (head : List Elem)
    (h : standaloneTag ∈ reg) : registerStandalone reg head = (reg, head) := by
  unfold registerStandalone
  rw [if_pos h]

theorem registerStandalone_fst_cases (reg : List String) (head : List Elem) :
    (registerStandalone reg head).1 = reg ∨
      (registerStandalone reg head).1 = standaloneTag :: reg := by
  unfold registerStandalone
  split
  · exact Or.inl rfl
  · exact Or.inr rfl

theorem registerStandalone_snd_cases (reg : List String) (head : List Elem) :
    (registerStandalone reg head).2 = head ∨
      (registerStandalone reg head).2 = head ++ [styleElem] := by
  unfold registerStandalone
  split
  · exact Or.inl rfl
  · exact Or.inr rfl

theorem synthSt_registry (props : MicroAppProps) (st : AdapterState) :
    (synthSt props st).registry = (registerStandalone st.registry st.doc.head).1 := rfl

theorem synthSt_head (props : MicroAppProps) (st : AdapterState) :
    (synthSt props st).doc.head = (registerStandalone st.registry st.doc.head).2 := rfl

theorem synthSt_body (props : MicroAppProps) (st : AdapterState) :
    (synthSt props st).doc.body = st.doc.body ++ [mkContainer (jsNameOr props.name)] := rfl

theorem oldResolveSel_opts (opts : OldOptions) (doc : Doc)
    (registry : List String) (sel : String) (q : Option Elem) :
    (oldResolveSel opts doc registry sel q).2.2.2 = opts := by
  cases q <;> rfl

theorem oldMountHookStep_opts (r : Elem × Doc × List String × OldOptions)
    (hres : Option (Except String VueApp)) (app : VueApp) :
    (oldMountHookStep r hres app).opts = r.2.2.2 := by
  cases hres with
  | none => rfl
  | some x => cases x <;> rfl

theorem oldMount_opts (app : VueApp) (opts : OldOptions) (props : MicroAppProps)
    (doc : Doc) (registry : List String) :
    (oldMount app opts props doc registry).opts =
      (oldResolve opts props doc registry).2.2.2 :=
  oldMountHookStep_opts ..

/-- The full outcome of a `mount` call whose customization hook fails:
the call rejects with the hook's error, while the state keeps the
instance stored (line 182 ran) and the listener registered (line 203
ran); only `Ev.listenerAdded` was traced. -/
theorem mount_hookFail_eq (opts : CreateVueMicroAppOptions)
    (props : MicroAppProps) (st : AdapterState) (loc : Loc)
    (h : VueApp → MicroAppProps → Except String VueApp) (e : String)
    (el : Elem) (st1 : AdapterState)
    (hres : resolveTarget opts props st = Except.ok (el, st1))
    (hh : opts.setupInstance = some h)
    (hf : h (freshApp props) props = Except.error e) :
    mount opts props st loc =
      ⟨Except.error e, { st1 with app := some (freshApp props), listener := true },
       opts, [Ev.listenerAdded]⟩ := by
  unfold mount
  rw [hres]
  unfold mountFrom
  rw [hh, Option.map_some', hf]
  rfl

/-- The full outcome of a `mount` call whose customization hook
completes, returning the (hook-mutated) instance `a1`. -/
theorem mount_hookOk_eq (opts : CreateVueMicroAppOptions)
    (props : MicroAppProps) (st : AdapterState) (loc : Loc)
    (h : VueApp → MicroAppProps → Except String VueApp) (a1 : VueApp)
    (el : Elem) (st1 : AdapterState)
    (hres : resolveTarget opts props st = Except.ok (el, st1))
    (hh : opts.setupInstance = some h)
    (hs : h (freshApp props) props = Except.ok a1) :
    mount opts props st loc =
      finishMount opts loc el { st1 with app := some a1, listener := true } a1
        [Ev.listenerAdded, Ev.hookRan] := by
  unfold mount
  rw [hres]
  unfold mountFrom
  rw [hh, Option.map_some', hs]
  rfl

theorem mount_ok_app (opts : CreateVueMicroAppOptions) (props : MicroAppProps)
    (st : AdapterState) (loc : Loc) (a' : VueApp)
    (h : (mount opts props st loc).result = Except.ok a') :
    (mount opts props st loc).st.app = some a' := by
  unfold mount at h ⊢
  cases hr : resolveTarget opts props st with
  | error e =>
    rw [hr] at h
    exact Except.noConfusion h
  | ok p =>
    rw [hr] at h
    exact mountFrom_ok_app opts props loc p.1 p.2 a' h

/-! ### Claim theorems -/

/-- C1, counterexample: the claim "on hook failure ... no application
instance is left stored ... a subsequent update is a no-op" is false on
the code. `mount` stores the instance (line 182) before the hook runs
(line 206), so after a hook-failed mount the slot is non-empty and a
subsequent `update` merges into the stored instance instead of being a
no-op. -/
theorem c1_counterexample :
    (mount optsFail props0 st0 loc0).result = Except.error "boom" ∧
    (mount optsFail props0 st0 loc0).st.app ≠ none ∧
    (update (mount optsFail props0 st0 loc0).st [("a", "1")]).app ≠
      (mount optsFail props0 st0 loc0).st.app := by
  refine ⟨rfl, by decide, by decide⟩

/-- C1, amended: whenever the configured customization hook fails, the
mount promise rejects with exactly that failure and the instance is
never attached to the DOM; however, the instance created before the
hook remains stored in the adapter's slot, so a subsequent `update` is
not a no-op, and the slot is cleared only by a later `unmount`. -/
theorem c1_hook_failure_amended (opts : CreateVueMicroAppOptions)
    (props : MicroAppProps) (st : AdapterState) (loc : Loc)
    (h : VueApp → MicroAppProps → Except String VueApp) (e : String)
    (el : Elem) (st1 : AdapterState)
    (hres : resolveTarget opts props st = Except.ok (el, st1))
    (hh : opts.setupInstance = some h)
    (hf : h (freshApp props) props = Except.error e) :
    (mount opts props st loc).result = Except.error e ∧
    (mount opts props st loc).st.app = some (freshApp props) ∧
    (freshApp props).mounted = none ∧
    (update (mount opts props st loc).st [("a", "1")]).app ≠
      (mount opts props st loc).st.app ∧
    (unmount (mount opts props st loc).st).1.app = none := by
  rw [mount_hookFail_eq opts props st loc h e el st1 hres hh hf]
  refine ⟨rfl, rfl, rfl, ?_, rfl⟩
  intro hq
  have h2 := congrArg (fun o => o.map VueApp.globalProps) hq
  simp [update, assignPairs, setKey, freshApp] at h2

/-- Witness for C1's amended theorem at a concrete failing hook. -/
theorem c1_hook_failure_amended_witness :
    (mount optsFail props0 st0 loc0).result = Except.error "boom" ∧
    (mount optsFail props0 st0 loc0).st.app = some (freshApp props0) := by
  have h := c1_hook_failure_amended optsFail props0 st0 loc0 hookFail "boom"
    (mkContainer (jsNameOr props0.name)) (synthSt props0 st0) rfl rfl rfl
  exact ⟨h.1, h.2.1⟩

/-- C2: with no attached `props.domElement` and a configured selector
matching nothing in the document, `mount` rejects with the fixed
descriptive configuration error and the adapter state is completely
unchanged — in particular no instance is stored. (This is the current
adapter, lines 145-153; the older vendored variant instead synthesizes
a `<div>` fallback, the policy divergence the spec records.) -/
theorem c2_missing_selector_rejects (opts : CreateVueMicroAppOptions)
    (props : MicroAppProps) (st : AdapterState) (loc : Loc) (sel : String)
    (h1 : domElOk props st = none)
    (h2 : elTruthy opts.el = some (Sum.inl sel))
    (h3 : st.doc.query sel = none) :
    (mount opts props st loc).result = Except.error errMessage ∧
    (mount opts props st loc).st = st ∧
    (mount opts props st loc).st.app = st.app := by
  have hr : resolveTarget opts props st = Except.error errMessage := by
    unfold resolveTarget
    rw [h1, h2]
    show (match st.doc.query sel with
          | some e => Except.ok (e, st)
          | none => Except.error errMessage) = Except.error errMessage
    rw [h3]
  have hm : mount opts props st loc = ⟨Except.error errMessage, st, opts, []⟩ := by
    unfold mount
    rw [hr]
  rw [hm]
  exact ⟨rfl, rfl, rfl⟩

/-- Witness for C2 at the spec's own scenario `el: "#missing"`. -/
theorem c2_missing_selector_rejects_witness :
    (mount optsMissing props0 st0 loc0).result = Except.error errMessage ∧
    (mount optsMissing props0 st0 loc0).st = st0 := by
  have h := c2_missing_selector_rejects optsMissing props0 st0 loc0 "#missing" rfl rfl rfl
  exact ⟨h.1, h.2.1⟩

/-- C3: after any successfully completed `mount`, `unmount` detaches the
stored instance (`app.unmount()`, traced), unregisters the navigation
listener and clears the slot, making a subsequent `update` a no-op; and
`unmount` on an empty slot is a total no-op. -/
theorem c3_unmount_cleanup (opts : CreateVueMicroAppOptions)
    (props : MicroAppProps) (st : AdapterState) (loc : Loc) :
    (∀ a', (mount opts props st loc).result = Except.ok a' →
      (unmount (mount opts props st loc).st).1.app = none ∧
      (unmount (mount opts props st loc).st).1.listener = false ∧
      (unmount (mount opts props st loc).st).2 =
        [Ev.removedListener, Ev.unmountedInstance] ∧
      (∀ p, update (unmount (mount opts props st loc).st).1 p =
        (unmount (mount opts props st loc).st).1)) ∧
    (∀ s : AdapterState, s.app = none → unmount s = (s, [])) := by
  constructor
  · intro a' hok
    have happ := mount_ok_app opts props st loc a' hok
    have hu : unmount (mount opts props st loc).st =
        ({ (mount opts props st loc).st with listener := false, app := none },
         [Ev.removedListener, Ev.unmountedInstance]) := by
      unfold unmount
      rw [happ]
    rw [hu]
    exact ⟨rfl, rfl, rfl, fun p => rfl⟩
  · intro s hs
    unfold unmount
    rw [hs]

/-- Witness for C3: a concrete mount-then-unmount, and `unmount` on the
fresh state. -/
theorem c3_unmount_cleanup_witness :
    (unmount (mount optsPlain props0 st0 loc0).st).1.app = none ∧
    unmount st0 = (st0, []) := by
  have h := c3_unmount_cleanup optsPlain props0 st0 loc0
  exact ⟨(h.1 { freshApp props0 with
      mounted := some (mkContainer (jsNameOr props0.name)) } rfl).1,
    h.2 st0 rfl⟩

/-- C4, counterexample: the claim "the listener is registered only after
the hook has completed successfully; on hook failure no listener
registered by that mount call remains" is false on the code:
`addEventListener` (line 203) runs before the hook (line 206), so after
a hook-failed mount on a fresh state the listener is still registered. -/
theorem c4_counterexample :
    st0.listener = false ∧
    (mount optsFail props0 st0 loc0).result = Except.error "boom" ∧
    (mount optsFail props0 st0 loc0).st.listener = true :=
  ⟨rfl, rfl, rfl⟩

/-- C4, amended: the navigation listener is registered during `mount`
before the customization hook is invoked (a hook-failed mount traces
only the registration); on hook failure the listener remains
registered, and it is removed by a subsequent `unmount` (which is
reachable because the instance reference also remains stored). -/
theorem c4_listener_before_hook_amended (opts : CreateVueMicroAppOptions)
    (props : MicroAppProps) (st : AdapterState) (loc : Loc)
    (h : VueApp → MicroAppProps → Except String VueApp) (e : String)
    (el : Elem) (st1 : AdapterState)
    (hres : resolveTarget opts props st = Except.ok (el, st1))
    (hh : opts.setupInstance = some h)
    (hf : h (freshApp props) props = Except.error e) :
    (mount opts props st loc).trace = [Ev.listenerAdded] ∧
    (mount opts props st loc).st.listener = true ∧
    (unmount (mount opts props st loc).st).1.listener = false := by
  rw [mount_hookFail_eq opts props st loc h e el st1 hres hh hf]
  exact ⟨rfl, rfl, rfl⟩

/-- Witness for C4's amended theorem at a concrete failing hook. -/
theorem c4_listener_before_hook_amended_witness :
    (mount optsFail props0 st0 loc0).trace = [Ev.listenerAdded] ∧
    (mount optsFail props0 st0 loc0).st.listener = true := by
  have h := c4_listener_before_hook_amended optsFail props0 st0 loc0 hookFail "boom"
    (mkContainer (jsNameOr props0.name)) (synthSt props0 st0) rfl rfl rfl
  exact ⟨h.1, h.2.1⟩

/-- C5: on a delivered navigation event, if the instance's global
configuration surface yields no router the event is ignored; with a
router, an event whose origin-stripped target equals the router's
current full path issues no navigation, and a differing target issues
exactly one replace-navigation to that path. -/
theorem c5_navigation_handler (st : AdapterState) (ev : NavEvent) :
    (st.app.bind VueApp.router = none → handleInternalNavigation st ev = []) ∧
    (∀ r, st.app.bind VueApp.router = some r →
      (r.currentFullPath = stripFirst ev.toUrl.href ev.toUrl.origin →
        handleInternalNavigation st ev = []) ∧
      (r.currentFullPath ≠ stripFirst ev.toUrl.href ev.toUrl.origin →
        handleInternalNavigation st ev =
          [NavAction.replace (stripFirst ev.toUrl.href ev.toUrl.origin)])) := by
  constructor
  · intro h
    unfold handleInternalNavigation
    rw [h]
  · intro r hr
    constructor
    · intro heq
      unfold handleInternalNavigation
      rw [hr]
      simp [heq]
    · intro hne
      unfold handleInternalNavigation
      rw [hr]
      simp [hne]

/-- Witness for C5: with the router at `/a`, the event for `/b` issues
one replace to `/b` and the event for `/a` issues nothing. -/
theorem c5_navigation_handler_witness :
    handleInternalNavigation stNav evB = [NavAction.replace "/b"] ∧
    handleInternalNavigation stNav evA = [] := by
  constructor
  · have h := ((c5_navigation_handler stNav evB).2 ⟨"/a"⟩ rfl).2 (by decide)
    rw [h]
    rfl
  · exact ((c5_navigation_handler stNav evA).2 ⟨"/a"⟩ rfl).1 (by decide)

/-- C6, counterexample: the claim "mount produces exactly one newly
attached element in the document" is false on the first synthesis-path
mount, which attaches two new elements (the container in the body and
the one-time style element in the head); and with the supplied but
falsy name `""` the container's name attribute is `default-mfe`, not
`props.name`. -/
theorem c6_counterexample :
    propsEmptyName.name = some "" ∧
    st0.doc.body.length + st0.doc.head.length = 0 ∧
    (mount optsPlain propsEmptyName st0 loc0).st.doc.body.length +
      (mount optsPlain propsEmptyName st0 loc0).st.doc.head.length = 2 ∧
    (mount optsPlain propsEmptyName st0 loc0).st.doc.body =
      [mkContainer "default-mfe"] ∧
    "default-mfe" ≠ "" := by
  refine ⟨rfl, rfl, rfl, rfl, by decide⟩

/-- C6, amended: a mount with no configured `el` and no attached
`props.domElement` appends exactly one new element to `document.body` —
the synthesized container, tagged `microtsm-standalone-app`, with its
name attribute `props.name` when supplied and nonempty and the fixed
default `default-mfe` otherwise — and additionally, only when the tag
is not yet registered, appends the one-time style element to
`document.head`. -/
theorem c6_synthesized_container_amended (opts : CreateVueMicroAppOptions)
    (props : MicroAppProps) (st : AdapterState) (loc : Loc)
    (h0 : opts.el = none) (h1 : props.domElement = none) :
    (mount opts props st loc).st.doc.body =
      st.doc.body ++ [mkContainer (jsNameOr props.name)] ∧
    (standaloneTag ∈ st.registry →
      (mount opts props st loc).st.doc.head = st.doc.head) ∧
    (standaloneTag ∉ st.registry →
      (mount opts props st loc).st.doc.head = st.doc.head ++ [styleElem]) ∧
    (mkContainer (jsNameOr props.name)).tag = standaloneTag ∧
    (mkContainer (jsNameOr props.name)).attrs = [("name", jsNameOr props.name)] ∧
    (∀ n, props.name = some n → n ≠ "" → jsNameOr props.name = n) ∧
    (props.name = none → jsNameOr props.name = "default-mfe") ∧
    (props.name = some "" → jsNameOr props.name = "default-mfe") := by
  have hd : (mount opts props st loc).st.doc = (synthSt props st).doc := by
    rw [mount_synth opts props st loc h0 h1]
    exact mountFrom_doc ..
  refine ⟨?_, ?_, ?_, rfl, rfl, ?_, ?_, ?_⟩
  · rw [hd]
    exact synthSt_body ..
  · intro hmem
    rw [hd, synthSt_head, registerStandalone_of_mem st.registry st.doc.head hmem]
  · intro hnmem
    rw [hd, synthSt_head]
    unfold registerStandalone
    rw [if_neg hnmem]
  · intro n hn hne
    rw [hn]
    simp [jsNameOr, hne]
  · intro hn
    rw [hn]
    rfl
  · intro hn
    rw [hn]
    rfl

/-- Witness for C6's amended theorem on a fresh document. -/
theorem c6_synthesized_container_amended_witness :
    (mount optsPlain props0 st0 loc0).st.doc.body =
      st0.doc.body ++ [mkContainer (jsNameOr props0.name)] ∧
    (mount optsPlain props0 st0 loc0).st.doc.head =
      st0.doc.head ++ [styleElem] := by
  have h := c6_synthesized_container_amended optsPlain props0 st0 loc0 rfl rfl
  exact ⟨h.1, h.2.2.1 (by decide)⟩

/-- C7: two mount calls on the synthesis path register the custom
element class at most once and inject the style rule at most once: the
first call adds at most one registry entry and at most one style
element, and the second call changes neither the registry nor the head. -/
theorem c7_registration_idempotent (opts : CreateVueMicroAppOptions)
    (props1 props2 : MicroAppProps) (st : AdapterState) (loc1 loc2 : Loc)
    (h0 : opts.el = none) (h1 : props1.domElement = none)
    (h2 : props2.domElement = none) :
    (mount opts props2 (mount opts props1 st loc1).st loc2).st.registry =
      (mount opts props1 st loc1).st.registry ∧
    (mount opts props2 (mount opts props1 st loc1).st loc2).st.doc.head =
      (mount opts props1 st loc1).st.doc.head ∧
    ((mount opts props1 st loc1).st.registry = st.registry ∨
      (mount opts props1 st loc1).st.registry = standaloneTag :: st.registry) ∧
    ((mount opts props1 st loc1).st.doc.head = st.doc.head ∨
      (mount opts props1 st loc1).st.doc.head = st.doc.head ++ [styleElem]) := by
  have hd1 : (mount opts props1 st loc1).st.doc = (synthSt props1 st).doc := by
    rw [mount_synth opts props1 st loc1 h0 h1]
    exact mountFrom_doc ..
  have hg1 : (mount opts props1 st loc1).st.registry = (synthSt props1 st).registry := by
    rw [mount_synth opts props1 st loc1 h0 h1]
    exact mountFrom_registry ..
  have hmem : standaloneTag ∈ (mount opts props1 st loc1).st.registry := by
    rw [hg1, synthSt_registry]
    exact registerStandalone_mem ..
  have hreg2 : registerStandalone (mount opts props1 st loc1).st.registry
      (mount opts props1 st loc1).st.doc.head =
      ((mount opts props1 st loc1).st.registry,
       (mount opts props1 st loc1).st.doc.head) :=
    registerStandalone_of_mem _ _ hmem
  have hd2 : (mount opts props2 (mount opts props1 st loc1).st loc2).st.doc =
      (synthSt props2 (mount opts props1 st loc1).st).doc := by
    rw [mount_synth opts props2 (mount opts props1 st loc1).st loc2 h0 h2]
    exact mountFrom_doc ..
  have hg2 : (mount opts props2 (mount opts props1 st loc1).st loc2).st.registry =
      (synthSt props2 (mount opts props1 st loc1).st).registry := by
    rw [mount_synth opts props2 (mount opts props1 st loc1).st loc2 h0 h2]
    exact mountFrom_registry ..
  refine ⟨?_, ?_, ?_, ?_⟩
  · rw [hg2, synthSt_registry, hreg2]
  · rw [hd2, synthSt_head, hreg2]
  · rw [hg1, synthSt_registry]
    exact registerStandalone_fst_cases ..
  · rw [hd1, synthSt_head]
    exact registerStandalone_snd_cases ..

/-- Witness for C7: two concrete synthesis-path mounts on a fresh state. -/
theorem c7_registration_idempotent_witness :
    (mount optsPlain props0 (mount optsPlain props0 st0 loc0).st loc0).st.registry =
      (mount optsPlain props0 st0 loc0).st.registry ∧
    (mount optsPlain props0 (mount optsPlain props0 st0 loc0).st loc0).st.doc.head =
      (mount optsPlain props0 st0 loc0).st.doc.head := by
  have h := c7_registration_idempotent optsPlain props0 props0 st0 loc0 loc0 rfl rfl rfl
  exact ⟨h.1, h.2.1⟩

/-- C8: on a mount whose customization hook completes leaving a router
on the instance's global configuration surface, the mount succeeds and
its trace is exactly listener registration, hook completion, one
replace-navigation to the origin-stripped current browser URL, and only
then the attachment of the instance. -/
theorem c8_router_resync_order (opts : CreateVueMicroAppOptions)
    (props : MicroAppProps) (st : AdapterState) (loc : Loc)
    (h : VueApp → MicroAppProps → Except String VueApp)
    (a1 : VueApp) (r : Router) (el : Elem) (st1 : AdapterState)
    (hres : resolveTarget opts props st = Except.ok (el, st1))
    (hh : opts.setupInstance = some h)
    (hs : h (freshApp props) props = Except.ok a1)
    (hr : a1.router = some r) :
    (mount opts props st loc).trace =
      [Ev.listenerAdded, Ev.hookRan,
       Ev.routerReplace (stripFirst loc.href loc.origin), Ev.attached] ∧
    (mount opts props st loc).result = Except.ok { a1 with mounted := some el } := by
  rw [mount_hookOk_eq opts props st loc h a1 el st1 hres hh hs]
  constructor
  · unfold finishMount
    rw [hr]
    rfl
  · exact finishMount_result ..

/-- Witness for C8: a hook that installs a router, on the page `/app`. -/
theorem c8_router_resync_order_witness :
    (mount optsRouter props0 st0 loc0).trace =
      [Ev.listenerAdded, Ev.hookRan, Ev.routerReplace "/app", Ev.attached] := by
  have h := c8_router_resync_order optsRouter props0 st0 loc0 hookRouter
    { freshApp props0 with router := some routerOld } routerOld
    (mkContainer (jsNameOr props0.name)) (synthSt props0 st0) rfl rfl rfl rfl
  rw [h.1]
  rfl

/-- C9, counterexample: the claim "the construction-time
ConfigurationOptions ... are unchanged after the call completes" is
false on the older vendored adapter variant: its `mount` on the
synthesis path overwrites `opts.el` (line 418) with a selector naming
the synthesized container. -/
theorem c9_counterexample :
    oldOpts0.el = none ∧
    (oldMount (freshApp props0) oldOpts0 props0 doc0 []).opts.el =
      some (Sum.inl "microtsm-mfe-app[name=\"default-mfe\"]") :=
  ⟨rfl, rfl⟩

/-- C9, amended: in the current adapter every `mount` call leaves the
construction-time options unchanged (and `bootstrap`, `update`,
`unmount` never touch them — in this embedding they do not even receive
them, mirroring the source, which never reads `opts` there). In the
older vendored variant the hook is never changed either, and `mount`
leaves the options unchanged whenever an explicit `props.domElement` or
a truthy configured `el` is present — but on the synthesis path it
overwrites `opts.el` with a selector naming the synthesized container. -/
theorem c9_options_frame_amended :
    (∀ (opts : CreateVueMicroAppOptions) (props : MicroAppProps)
       (st : AdapterState) (loc : Loc), (mount opts props st loc).opts = opts) ∧
    (∀ (a : VueApp) (opts : OldOptions) (props : MicroAppProps) (doc : Doc)
       (reg : List String),
      (oldMount a opts props doc reg).opts.handleInstance = opts.handleInstance ∧
      (props.domElement = none → elTruthy opts.el = none →
        (oldMount a opts props doc reg).opts.el =
          some (Sum.inl ("microtsm-mfe-app[name=\"" ++ jsNameOr props.name ++ "\"]"))) ∧
      (props.domElement ≠ none ∨ elTruthy opts.el ≠ none →
        (oldMount a opts props doc reg).opts = opts)) := by
  constructor
  · intro opts props st loc
    unfold mount
    cases hr : resolveTarget opts props st with
    | error e => rfl
    | ok p => exact mountFrom_opts ..
  · intro a opts props doc reg
    refine ⟨?_, ?_, ?_⟩
    · rw [oldMount_opts]
      unfold oldResolve
      cases hd : props.domElement with
      | some e => rfl
      | none =>
        cases he : elTruthy opts.el with
        | none => rfl
        | some x =>
          cases x with
          | inl sel => exact congrArg OldOptions.handleInstance (oldResolveSel_opts ..)
          | inr e => rfl
    · intro hd he
      rw [oldMount_opts]
      unfold oldResolve
      rw [hd, he]
      rfl
    · intro hor
      rw [oldMount_opts]
      unfold oldResolve
      cases hor with
      | inl hd =>
        obtain ⟨e, he⟩ := Option.ne_none_iff_exists'.mp hd
        rw [he]
      | inr he =>
        cases hd : props.domElement with
        | some e => rfl
        | none =>
          cases het : elTruthy opts.el with
          | none => exact absurd het he
          | some x =>
            cases x with
            | inl sel => exact oldResolveSel_opts ..
            | inr e => rfl

/-- Witness for C9's amended theorem: the current adapter's `mount`
leaves concrete options unchanged; the old variant's synthesis-path
mount rewrites `opts.el` to the predicted selector. -/
theorem c9_options_frame_amended_witness :
    (mount optsMissing props0 st0 loc0).opts = optsMissing ∧
    (oldMount (freshApp props0) oldOpts0 props0 doc0 []).opts.el =
      some (Sum.inl ("microtsm-mfe-app[name=\"" ++ jsNameOr props0.name ++ "\"]")) := by
  exact ⟨c9_options_frame_amended.1 optsMissing props0 st0 loc0,
    (c9_options_frame_amended.2 (freshApp props0) oldOpts0 props0 doc0 []).2.1 rfl rfl⟩

/-- C10: a navigation event delivered while the instance slot is empty
(never mounted, or cleared by `unmount`) makes the handler a total
no-op: the optional-chaining guard yields no router, so no navigation
is issued and nothing fails. -/
theorem c10_null_guard (st : AdapterState) (ev : NavEvent) :
    (st.app = none → handleInternalNavigation st ev = []) ∧
    (∀ a, st.app = some a → handleInternalNavigation (unmount st).1 ev = []) := by
  constructor
  · intro h
    unfold handleInternalNavigation
    rw [h]
    rfl
  · intro a h
    have hu : (unmount st).1 = { st with listener := false, app := none } := by
      unfold unmount
      rw [h]
    rw [hu]
    rfl

/-- Witness for C10 at a fresh state and at an unmounted state. -/
theorem c10_null_guard_witness :
    handleInternalNavigation st0 evB = [] ∧
    handleInternalNavigation (unmount stNav).1 evB = [] :=
  ⟨(c10_null_guard st0 evB).1 rfl, (c10_null_guard stNav evB).2 appNav rfl⟩

end MicroTSMVue
